import Mathlib

/-!
Verification of the Columbia Weather Systems MicroServer driver
(`bin/user/columbia_ms.py`) against its specification.

The driver's pure core is shallowly embedded here:
Python floats are modelled as rationals, Python dicts as insertion-ordered
association lists, and exceptions as an `Except` error type enumerating the
exception kinds that can escape (`weewx.WeeWxIOError`, `KeyError`,
`IndexError`, `ValueError`, `TypeError`).  External collaborators (the host
engine's unit-conversion table, the rain-delta formula, the XML library's
`fromstring`) are passed in as parameters or modelled from the spec, as noted
on each definition.
-/

deriving instance DecidableEq for Except

namespace ColumbiaMS

/-- Unit-system tags of the host engine (the constants `weewx.US`,
`weewx.METRIC`, `weewx.METRICWX` referenced by the driver). -/
inductive UnitSystem where
  | us
  | metric
  | metricwx
deriving DecidableEq, Repr

/-- Values stored in the driver's Python dictionaries: floats (as rationals),
strings, host unit-system constants, and `None`. -/
inductive PyVal where
  | num (q : ℚ)
  | str (s : String)
  | usys (u : UnitSystem)
  | pynone
deriving DecidableEq, Repr

/-- Exception kinds that can escape the driver's parsing and assembly code.
`weewxIOError` is the single externally visible parse-failure kind
(the spec's StructureError/ParseError); the others are ordinary Python
exceptions that the driver does not catch. -/
inductive PyErr where
  | weewxIOError (msg : String)
  | keyError (k : String)
  | indexError
  | valueError (s : String)
  | typeError (s : String)
deriving DecidableEq, Repr

/-- Whether an error is the externally visible parse/transport failure kind
(`weewx.WeeWxIOError`), the only kind the retry controller catches. -/
def isIOErrKind : PyErr → Bool
  | .weewxIOError _ => true
  | _ => false

/-- Lookup in an insertion-ordered association list
(Python dict read `d[k]`, with absence as `none`). -/
def alGet? {α : Type} : List (String × α) → String → Option α
  | [], _ => none
  | (k', v) :: rest, k => if k' = k then some v else alGet? rest k

/-- Insertion-ordered update (Python dict write `d[k] = v`): an existing key
keeps its position, a new key is appended at the end. -/
def alSet {α : Type} : List (String × α) → String → α → List (String × α)
  | [], k, v => [(k, v)]
  | (k', v') :: rest, k, v =>
    if k' = k then (k', v) :: rest else (k', v') :: alSet rest k v

/-- A Python dict from field names to values (one packet or packet group). -/
abbrev Dict := List (String × PyVal)

/-- The two-level dictionary returned by `parse_data`: packet-group tag to
group dictionary. -/
abbrev PktGrp := List (String × Dict)

/-- The static `ColumbiaMicroServerStation.XML_INPUT_ELEMENTS` table mapping
measurement names to their packet group. -/
def XML_INPUT_ELEMENTS : List (String × String) :=
  [("mtWindSpeed", "wind"),
   ("mtAdjWindDir", "wind"),
   ("mt2MinWindGustSpeed", "wind"),
   ("mt2MinWindGustDir", "wind"),
   ("mtTemp1", "temp"),
   ("mtWindChill", "temp"),
   ("mtDewPoint", "temp"),
   ("mtHeatIndex", "temp"),
   ("mtTemp_2", "temp"),
   ("mtTemp_3", "temp"),
   ("mtTemp_4", "temp"),
   ("mtRainThisMonth", "rain"),
   ("mtRainRate", "rain"),
   ("mtAdjBaromPress", "pressure"),
   ("mtRelHumidity", "generic"),
   ("mtSolarRadiaton", "generic")]

/-- The static `XML_INPUT_UNIT_ELEMENTS` list: the designated unit-determining
measurement of each packet group. -/
def XML_INPUT_UNIT_ELEMENTS : List String :=
  ["mtWindSpeed", "mtTemp1", "mtRainRate", "mtRelHumidity", "mtAdjBaromPress"]

/-- The static `ColumbiaMicroServerDriver.UNITS_MAP` table from device unit
strings to host unit systems (note: "knots" is commented out in the source). -/
def UNITS_MAP : List (String × UnitSystem) :=
  [("degreeC", .metricwx),
   ("degreeF", .us),
   ("inchesHg", .us),
   ("inchesPerHour", .us),
   ("inchesRain", .us),
   ("kmPerHour", .metric),
   ("metersPerSecond", .metricwx),
   ("mmPerHour", .metricwx),
   ("mmRain", .metricwx),
   ("mph", .us)]

/-- The built-in `DEFAULT_SENSOR_MAP` from output field names to device
measurement names, in source (= Python dict iteration) order. -/
def DEFAULT_SENSOR_MAP : List (String × String) :=
  [("windSpeed", "mtWindSpeed"),
   ("windDir", "mtAdjWindDir"),
   ("windGust", "mt2MinWindGustSpeed"),
   ("windGustDir", "mt2MinWindGustDir"),
   ("outTemp", "mtTemp1"),
   ("windchill", "mtWindChill"),
   ("dewpoint", "mtDewPoint"),
   ("heatindex", "mtHeatIndex"),
   ("extraTemp1", "mtTemp_2"),
   ("extraTemp2", "mtTemp_3"),
   ("extraTemp3", "mtTemp_4"),
   ("rainTotal", "mtRainThisMonth"),
   ("rainRate", "mtRainRate"),
   ("barometer", "mtAdjBaromPress"),
   ("outHumidity", "mtRelHumidity"),
   ("radiation", "mtSolarRadiaton")]

/-- An XML measurement element as delivered by the XML library: tag,
attribute list, and text content. -/
structure XElem where
  tag : String
  attrib : List (String × String)
  text : String
deriving DecidableEq, Repr

/-- The root XML element: tag plus flat list of child elements. -/
structure XRoot where
  tag : String
  children : List XElem
deriving DecidableEq, Repr

/-- Numeric value of a decimal digit character. -/
def digitVal (c : Char) : ℕ := c.toNat - 48

/-- Accumulate a digit list into a natural number. -/
def digitsToNat (ds : List Char) : ℕ :=
  ds.foldl (fun a c => a * 10 + digitVal c) 0

/-- Negate a rational when the parsed sign was negative. -/
def applySign (neg : Bool) (q : ℚ) : ℚ := if neg then -q else q

/-- Modelled from the spec: the numeric coercion `float(child.text)` applied to
a measurement element's text (the external float builtin is not part of the
repository; per the document schema the text is a plain decimal literal, so
the model accepts an optional sign, an integer part and an optional fractional
part, and fails on anything else). -/
def pyFloat (s : String) : Option ℚ :=
  let cs := s.toList
  let signed : Bool × List Char :=
    match cs with
    | '-' :: rest => (true, rest)
    | '+' :: rest => (false, rest)
    | _ => (false, cs)
  let neg := signed.1
  let body := signed.2
  let ip := body.takeWhile (fun c => c ≠ '.')
  let rest := body.dropWhile (fun c => c ≠ '.')
  match rest with
  | [] =>
    if !ip.isEmpty && ip.all Char.isDigit then
      some (applySign neg (digitsToNat ip : ℚ))
    else none
  | _ :: frac =>
    if (!ip.isEmpty || !frac.isEmpty) && ip.all Char.isDigit && frac.all Char.isDigit then
      some (applySign neg ((digitsToNat ip : ℚ) + (digitsToNat frac : ℚ) / ((10 : ℚ) ^ frac.length)))
    else none

/-- The structural error message raised by `parse_data` when the root tag or
first child is not as expected. -/
def structErrMsg : String :=
  "invalid XML file. Missing <oriondata> and/or <meas/> tags detected."

/-- Double update `pkt_grp[pkt_type][k] = v`.  The group `pkt_type` is always
present when the source performs this write (it is initialized just before),
so the default empty dictionary is never actually used. -/
def setInGrp (grp : PktGrp) (t k : String) (v : PyVal) : PktGrp :=
  alSet grp t (alSet ((alGet? grp t).getD []) k v)

/-- Loop body of `ColumbiaMicroServerStation.parse_data` for one child element:
`name = child.attrib['name']` (KeyError if absent), the tag/name recognition
check, group initialization, base-unit recording for designated unit
measurements, and the numeric coercion of the text (ValueError on failure). -/
def processChild (grp : PktGrp) (c : XElem) : Except PyErr PktGrp :=
  match alGet? c.attrib "name" with
  | none => .error (.keyError "name")
  | some name =>
    if c.tag = "meas" then
      match alGet? XML_INPUT_ELEMENTS name with
      | none => .ok grp
      | some pkt_type =>
        let grp1 := if (alGet? grp pkt_type).isSome then grp else alSet grp pkt_type []
        let unitStep : Except PyErr PktGrp :=
          if name ∈ XML_INPUT_UNIT_ELEMENTS then
            if pkt_type = "generic" then
              .ok (setInGrp grp1 pkt_type "base_units" (.str "generic"))
            else
              match alGet? c.attrib "unit" with
              | none => .error (.keyError "unit")
              | some u => .ok (setInGrp grp1 pkt_type "base_units" (.str u))
          else .ok grp1
        match unitStep with
        | .error e => .error e
        | .ok grp2 =>
          match pyFloat c.text with
          | none => .error (.valueError c.text)
          | some q => .ok (setInGrp grp2 pkt_type name (.num q))
    else .ok grp

/-- The structural checks and measurement loop of `parse_data`, operating on
the element tree returned by the XML library: verify the root tag and that the
first child is a measurement element (the explicit `ParseError` raise is
caught and re-raised as `weewx.WeeWxIOError`; indexing `elements[0]` on an
empty root raises an uncaught IndexError), then fold the loop body over all
children. -/
def parse_data_tree (root : XRoot) : Except PyErr PktGrp :=
  if root.tag = "oriondata" then
    match root.children with
    | [] => .error .indexError
    | c :: _ =>
      if c.tag = "meas" then
        root.children.foldlM processChild []
      else .error (.weewxIOError structErrMsg)
  else .error (.weewxIOError structErrMsg)

/-- The expected root opening tag prefix checked by the repair guard. -/
def openTag : List Char := "<oriondata".toList

/-- The canonical closing tag. -/
def closeTag : List Char := "</oriondata>".toList

/-- The literal prefix required by the repair pattern (the regex
`</ori(ondata)?.*$` needs at least these five characters). -/
def closePre : List Char := "</ori".toList

/-- Whether a character list contains no newline other than possibly its very
last character (the region a dot-star followed by an end anchor can span in
the Python regex engine's default mode). -/
def interiorNoNL : List Char → Bool
  | [] => true
  | [_] => true
  | c :: rest => (c ≠ '\n' : Bool) && interiorNoNL rest

/-- Whether the repair pattern `</ori(ondata)?.*$` matches at the head of this
suffix: the five-character prefix `</ori` followed by text containing no
newline except possibly a final one. -/
def matchHere (l : List Char) : Bool :=
  closePre.isPrefixOf l && interiorNoNL (l.drop 5)

/-- The substitution `re.sub('</ori(ondata)?.*$', '</oriondata>', data)`:
scan left to right for the first position where the pattern matches, replace
everything it matches by the canonical closing tag (keeping a final newline,
which the end anchor matches before but does not consume). -/
def subClose : List Char → List Char
  | [] => []
  | c :: rest =>
    if matchHere (c :: rest) then
      closeTag ++ (if (c :: rest).getLast? = some '\n' then ['\n'] else [])
    else c :: subClose rest

/-- The truncation-repair step guarding `parse_data`: only a document that
begins with the root opening tag but does not end with the canonical closing
tag is rewritten. -/
def repairData (data : List Char) : List Char :=
  if openTag.isPrefixOf data && !(closeTag.isSuffixOf data) then subClose data
  else data

/-- String-level wrapper of the repair step. -/
def repairStr (data : String) : String :=
  String.mk (repairData data.toList)

/-- The full `parse_data` static method: repair, then hand the document to the
XML library's `fromstring` (an external collaborator passed as a parameter; a
library-level `ParseError` is caught and re-raised as `weewx.WeeWxIOError`),
then run the structural checks and measurement loop. -/
def parse_data (fromstring : String → Except String XRoot) (data : String) :
    Except PyErr PktGrp :=
  match fromstring (repairStr data) with
  | .error m => .error (.weewxIOError m)
  | .ok root => parse_data_tree root

/-- A sequence of independent invocations of `parse_data` (the method is
static and touches no instance or global state, so successive calls are
modelled as independent applications of the same function). -/
def parseRuns (fromstring : String → Except String XRoot) (ds : List String) :
    List (Except PyErr PktGrp) :=
  ds.map (parse_data fromstring)

/-- Modelled from the spec: the external rain-delta formula collaborator
(`weewx.wxformulas.calculate_rain`, not part of this repository).  Per the
spec it derives the incremental rainfall between two cumulative totals,
yielding no delta without a prior baseline or on a counter reset. -/
def calculate_rain (newtotal oldtotal : Option ℚ) : Option ℚ :=
  match newtotal, oldtotal with
  | some n, some o => if o ≤ n then some (n - o) else none
  | _, _ => none

/-- Wrap an optional rain delta as the stored dictionary value. -/
def rainVal : Option ℚ → PyVal
  | some d => .num d
  | none => .pynone

/-- The `_calculate_rain_delta` method: read `packet['rainTotal']` (KeyError
if absent), store the delta computed by the external formula from the current
total and the carried `self.last_rain_total`, and only then overwrite
`self.last_rain_total` with the current total.  The carried state is passed
and returned explicitly. -/
def calculate_rain_delta (packet : Dict) (last_rain_total : Option ℚ) :
    Except PyErr (Dict × Option ℚ) :=
  match alGet? packet "rainTotal" with
  | none => .error (.keyError "rainTotal")
  | some v =>
    let rt : Option ℚ :=
      match v with
      | .num q => some q
      | _ => none
    .ok (alSet packet "rain" (rainVal (calculate_rain rt last_rain_total)), rt)

/-- Field renaming loop of `genLoopPackets`: for every configured output field
whose mapped source field exists in the group, copy its value. -/
def renameFields (sensor_map : List (String × String)) (pkt : Dict)
    (packet : Dict) : Dict :=
  sensor_map.foldl
    (fun p fs =>
      match alGet? pkt fs.2 with
      | some v => alSet p fs.1 v
      | none => p)
    packet

/-- The unit-translation step of `genLoopPackets` for one group: translate
the group's base-unit value through `UNITS_MAP`, apply the wind/knots special
case via the external knot-to-mph conversion collaborator `conv` (reading and
overwriting the already-renamed speed fields, KeyError if absent), default
the "generic" sentinel to US, and for an unknown unit leave the packet
without a unit-system entry (only a diagnostic is logged). -/
def normalizeUnits (conv : ℚ → ℚ) (pkt_type : String) (buv : PyVal)
    (packet : Dict) : Except PyErr Dict :=
  match buv with
  | .str base_units =>
    match alGet? UNITS_MAP base_units with
    | some u => .ok (alSet packet "usUnits" (.usys u))
    | none =>
      if pkt_type = "wind" ∧ base_units = "knots" then
        let packet := alSet packet "usUnits" (.usys .us)
        match alGet? packet "windSpeed" with
        | none => .error (.keyError "windSpeed")
        | some wsv =>
          match wsv with
          | .num ws =>
            let packet := alSet packet "windSpeed" (.num (conv ws))
            match alGet? packet "windGust" with
            | none => .error (.keyError "windGust")
            | some wgv =>
              match wgv with
              | .num wg => .ok (alSet packet "windGust" (.num (conv wg)))
              | _ => .error (.typeError "windGust")
          | _ => .error (.typeError "windSpeed")
      else if base_units = "generic" then
        .ok (alSet packet "usUnits" (.usys .us))
      else
        .ok packet
  | _ => .ok packet

/-- The per-group body of `genLoopPackets` once a group is eligible: build the
packet from the timestamp and renamed fields, read `pkt['base_units']`
unconditionally (KeyError if the group has none), run the unit-translation
step, and derive the rain delta for the rain group.  Returns the packet and
the updated carried rain total. -/
def assemblePacket (conv : ℚ → ℚ) (sensor_map : List (String × String))
    (packet_time : ℤ) (last_rain_total : Option ℚ) (pkt_type : String)
    (pkt : Dict) : Except PyErr (Dict × Option ℚ) :=
  match alGet? pkt "base_units" with
  | none => .error (.keyError "base_units")
  | some buv =>
    match normalizeUnits conv pkt_type buv
        (renameFields sensor_map pkt [("dateTime", .num (packet_time : ℚ))]) with
    | .error e => .error e
    | .ok packet =>
      if pkt_type = "rain" then calculate_rain_delta packet last_rain_total
      else .ok (packet, last_rain_total)

/-- One emission pass of `genLoopPackets` over a parsed packet-group
dictionary: non-wind groups are skipped unless this is the minute's final
poll, eligible groups are assembled in insertion order, and the carried rain
total is threaded through.  Any uncaught exception aborts the pass. -/
def genCycle (conv : ℚ → ℚ) (sensor_map : List (String × String))
    (packet_time : ℤ) (pkt_grp : PktGrp) (last_poll_this_minute : Bool)
    (last_rain_total : Option ℚ) : Except PyErr (List Dict × Option ℚ) :=
  match pkt_grp with
  | [] => .ok ([], last_rain_total)
  | (pkt_type, pkt) :: rest =>
    if pkt_type ≠ "wind" ∧ last_poll_this_minute = false then
      genCycle conv sensor_map packet_time rest last_poll_this_minute last_rain_total
    else
      match assemblePacket conv sensor_map packet_time last_rain_total pkt_type pkt with
      | .error e => .error e
      | .ok (packet, lrt') =>
        match genCycle conv sensor_map packet_time rest last_poll_this_minute lrt' with
        | .error e => .error e
        | .ok (pkts, lrtf) => .ok (packet :: pkts, lrtf)

/-- Poll-instant test of `_wait_for_next_poll_interval`: the busy-wait exits
when `(int(time.time()) + poll_lead_seconds) % int(poll_interval) == 0`. -/
def isPollInstant (t lead interval : ℕ) : Bool :=
  (t + lead) % interval == 0

/-- Minute-final flag returned by `_wait_for_next_poll_interval`:
`tm_sec in range(last_poll_time - 1, last_poll_time + 2)` with
`last_poll_time = 60 - poll_lead_seconds` and `tm_sec` the second of the
current minute. -/
def isLastPollOfMinute (t lead : ℕ) : Bool :=
  let last_poll_time : ℤ := 60 - (lead : ℤ)
  decide (last_poll_time - 1 ≤ (t : ℤ) % 60 ∧ (t : ℤ) % 60 < last_poll_time + 2)

/-- Outcome of one retrieval-plus-parse attempt in `genLoopPackets`: success
with a parsed group dictionary, or a caught `weewx.WeeWxIOError` (transport
failure from `get_data` or parse failure from `parse_data` alike). -/
inductive AttemptResult where
  | success (grp : PktGrp)
  | failure

/-- The two waiting modes of the retry controller: wait for the next poll
instant (quick retry), or block repeatedly until a poll instant that is also
the minute's final poll (slow retry). -/
inductive WaitKind where
  | nextPollInstant
  | untilMinuteFinalPoll
deriving DecidableEq, Repr

/-- One transition of the retry controller in `genLoopPackets`: on success the
consecutive-failure count resets to zero and no retry wait happens; on
failure the count increments and the loop waits quickly while the new count
is within the quick-retry budget, slowly once it exceeds it. -/
def retryStep (quick_retries ntries : ℕ) (r : AttemptResult) : ℕ × Option WaitKind :=
  match r with
  | .success _ => (0, none)
  | .failure =>
    let n := ntries + 1
    (n, some (if n ≤ quick_retries then .nextPollInstant else .untilMinuteFinalPoll))

/-- The retry controller iterated over a sequence of attempt outcomes,
returning the final consecutive-failure count and the sequence of retry
waits performed. -/
def runRetries (quick_retries : ℕ) : ℕ → List AttemptResult → ℕ × List WaitKind
  | _, .success _ :: rs => runRetries quick_retries 0 rs
  | n, .failure :: rs =>
    let n' := n + 1
    let w : WaitKind := if n' ≤ quick_retries then .nextPollInstant else .untilMinuteFinalPoll
    let next := runRetries quick_retries n' rs
    (next.1, w :: next.2)
  | n, [] => (n, [])

/-- Whether a child element is the designated unit-determining measurement of
group `g`: a measurement element whose name is in the unit-determining list
and maps to `g` in the static name-to-group table. -/
def designates (c : XElem) (g : String) : Bool :=
  decide (c.tag = "meas") &&
    (match alGet? c.attrib "name" with
     | some n =>
       decide (n ∈ XML_INPUT_UNIT_ELEMENTS) && decide (alGet? XML_INPUT_ELEMENTS n = some g)
     | none => false)

/-- Whether the parsed group dictionary holds a group `g` that contains the
`base_units` entry. -/
def groupHasBaseUnits (grp : PktGrp) (g : String) : Bool :=
  match alGet? grp g with
  | some d => (alGet? d "base_units").isSome
  | none => false

/-- A well-formed document with one wind-class and one temperature-class
measurement group. -/
def windTempDoc : XRoot :=
  ⟨"oriondata",
   [⟨"meas", [("name", "mtWindSpeed"), ("unit", "mph")], "10"⟩,
    ⟨"meas", [("name", "mtAdjWindDir"), ("unit", "degrees")], "270"⟩,
    ⟨"meas", [("name", "mtTemp1"), ("unit", "degreeF")], "72"⟩]⟩

/-- The parsed group dictionary of `windTempDoc`. -/
def windTempGrp : PktGrp :=
  [("wind", [("base_units", .str "mph"), ("mtWindSpeed", .num 10), ("mtAdjWindDir", .num 270)]),
   ("temp", [("base_units", .str "degreeF"), ("mtTemp1", .num 72)])]

/-- The wind packet emitted from `windTempDoc` at timestamp 1000. -/
def windPkt1000 : Dict :=
  [("dateTime", .num 1000), ("windSpeed", .num 10), ("windDir", .num 270),
   ("usUnits", .usys .us)]

/-- The temperature packet emitted from `windTempDoc` at timestamp 1000. -/
def tempPkt1000 : Dict :=
  [("dateTime", .num 1000), ("outTemp", .num 72), ("usUnits", .usys .us)]

/-- A rain-class document with the given cumulative rain total text. -/
def rainDoc (total : String) : XRoot :=
  ⟨"oriondata",
   [⟨"meas", [("name", "mtRainRate"), ("unit", "inchesPerHour")], "0"⟩,
    ⟨"meas", [("name", "mtRainThisMonth"), ("unit", "inchesRain")], total⟩]⟩

/-- A document whose only measurement has non-numeric text, so the numeric
coercion fails. -/
def badFloatDoc : XRoot :=
  ⟨"oriondata", [⟨"meas", [("name", "mtTemp1"), ("unit", "degreeF")], "abc"⟩]⟩

/-- A structurally valid document whose second child lacks the `name`
attribute. -/
def missingNameDoc : XRoot :=
  ⟨"oriondata",
   [⟨"meas", [("name", "mtTemp1"), ("unit", "degreeF")], "72"⟩,
    ⟨"meas", [("unit", "degreeF")], "72"⟩]⟩

/-- A document whose root has no children at all. -/
def emptyRootDoc : XRoot := ⟨"oriondata", []⟩

/-- A temperature document containing only the windchill measurement, which
is not the temperature group's designated unit-determining measurement. -/
def windchillOnlyDoc : XRoot :=
  ⟨"oriondata", [⟨"meas", [("name", "mtWindChill"), ("unit", "degreeF")], "30"⟩]⟩

/-- The parsed group dictionary of `windchillOnlyDoc`: a temperature group
without a `base_units` entry. -/
def windchillOnlyGrp : PktGrp :=
  [("temp", [("mtWindChill", .num 30)])]

/-- The rational 53/10 as a reduced literal (kernel-computable form of the
parsed rain total 5.3). -/
def q53_10 : ℚ := ⟨53, 10, by norm_num, by norm_num⟩

/-- The rational 3/10 as a reduced literal (kernel-computable form of the
rain delta 0.3). -/
def q3_10 : ℚ := ⟨3, 10, by norm_num, by norm_num⟩

/-- The parsed group dictionary of `rainDoc "5"`. -/
def rainGrp50 : PktGrp :=
  [("rain", [("base_units", .str "inchesPerHour"), ("mtRainRate", .num 0),
             ("mtRainThisMonth", .num 5)])]

/-- The parsed group dictionary of `rainDoc "5.3"`. -/
def rainGrp53 : PktGrp :=
  [("rain", [("base_units", .str "inchesPerHour"), ("mtRainRate", .num 0),
             ("mtRainThisMonth", .num q53_10)])]

/-- The rain packet emitted from the first rain cycle (total 5, no prior
baseline). -/
def rainPkt1 : Dict :=
  [("dateTime", .num 0), ("rainTotal", .num 5), ("rainRate", .num 0),
   ("usUnits", .usys .us), ("rain", .pynone)]

/-- The rain packet emitted from the second rain cycle (total 5.3 after 5.0:
delta 0.3). -/
def rainPkt2 : Dict :=
  [("dateTime", .num 0), ("rainTotal", .num q53_10), ("rainRate", .num 0),
   ("usUnits", .usys .us), ("rain", .num q3_10)]

/-- The intact part of a truncated document: root opening tag plus one
complete measurement element. -/
def goodPrefix : List Char :=
  "<oriondata><meas name=\"mtTemp1\" unit=\"degreeF\">72.5</meas>".toList

/-- A null-byte-corrupted partial closing tag. -/
def corruptTail : List Char := "</oriondata\x00\x00".toList

/-- A document truncated so early that fewer than five characters of the
closing tag survive: the repair pattern cannot match anywhere in it. -/
def truncDoc : List Char :=
  "<oriondata><meas name=\"mtTemp1\" unit=\"degreeF\">72.5</meas></or".toList

theorem alGet?_alSet_self {α : Type} (d : List (String × α)) (k : String) (v : α) :
    alGet? (alSet d k v) k = some v := by
  induction d with
  | nil => simp [alSet, alGet?]
  | cons p rest ih =>
    obtain ⟨a, b⟩ := p
    by_cases h : a = k
    · simp [alSet, alGet?, h]
    · simp [alSet, alGet?, h, ih]

theorem alGet?_alSet_ne {α : Type} (d : List (String × α)) (k k' : String) (v : α)
    (h : k' ≠ k) : alGet? (alSet d k v) k' = alGet? d k' := by
  induction d with
  | nil => simp [alSet, alGet?, Ne.symm h]
  | cons p rest ih =>
    obtain ⟨a, b⟩ := p
    by_cases ha : a = k
    · subst ha
      have hne : a ≠ k' := fun hh => h hh.symm
      simp [alSet, alGet?, hne]
    · by_cases hak : a = k'
      · simp [alSet, alGet?, ha, hak, h]
      · simp [alSet, alGet?, ha, hak, ih]

/-- C3: the scheduler treats second `t` as a poll instant exactly when
`(t + lead) % (60 / pollsPerMinute) = 0`; the minute-final flag holds exactly
when the second of the minute lies in the three-second window around
`60 - lead`; with 4 polls per minute and a 5-second lead the poll instants of
a minute fall on seconds 10, 25, 40 and 55, the flag window is seconds 54-56,
and of the four poll instants exactly the one at second 55 is flagged
minute-final. -/
theorem scheduler_poll_instants_and_minute_final :
    (∀ t lead interval : ℕ, isPollInstant t lead interval = true ↔ (t + lead) % interval = 0)
    ∧ (∀ t lead : ℕ, isLastPollOfMinute t lead = true ↔
        (60 - (lead : ℤ)) - 1 ≤ (t : ℤ) % 60 ∧ (t : ℤ) % 60 < (60 - (lead : ℤ)) + 2)
    ∧ (List.range 60).filter (fun r => isPollInstant r 5 (60 / 4)) = [10, 25, 40, 55]
    ∧ (List.range 60).filter (fun r => isLastPollOfMinute r 5) = [54, 55, 56]
    ∧ (List.range 60).filter (fun r => isPollInstant r 5 (60 / 4) && isLastPollOfMinute r 5) = [55]
    ∧ (∀ t : ℕ, isPollInstant t 5 (60 / 4) = true →
        (isLastPollOfMinute t 5 = true ↔ t % 60 = 55)) := by
  refine ⟨?_, ?_, by decide, by decide, by decide, ?_⟩
  · intro t lead interval
    simp [isPollInstant]
  · intro t lead
    simp [isLastPollOfMinute]
  · intro t h
    simp only [isPollInstant, beq_iff_eq] at h
    simp only [isLastPollOfMinute, decide_eq_true_eq]
    omega

/-- Witness for C3: second 55 of a minute is a poll instant and is flagged
minute-final. -/
theorem scheduler_poll_instants_witness : isLastPollOfMinute 55 5 = true :=
  (scheduler_poll_instants_and_minute_final.2.2.2.2.2 55 (by decide)).mpr (by decide)

/-- C5: on a failed retrieval-plus-parse attempt the retry controller
increments the consecutive-failure count and waits only for the next poll
instant while the count is within the quick-retry budget, switching to
waiting for a minute-final poll instant once the budget is exceeded; on a
successful attempt the count resets to zero; over k consecutive failures the
first `quick_retries` waits are quick and all later ones are slow. -/
theorem retry_controller_tiers :
    (∀ quick_retries ntries : ℕ, ∀ g : PktGrp,
        retryStep quick_retries ntries (.success g) = (0, none))
    ∧ (∀ quick_retries ntries : ℕ,
        retryStep quick_retries ntries .failure =
          (ntries + 1,
           some (if ntries + 1 ≤ quick_retries then .nextPollInstant
                 else .untilMinuteFinalPoll)))
    ∧ (∀ quick_retries k n : ℕ,
        runRetries quick_retries n (List.replicate k .failure) =
          (n + k, (List.range k).map
            (fun i => if n + i + 1 ≤ quick_retries then WaitKind.nextPollInstant
                      else WaitKind.untilMinuteFinalPoll)))
    ∧ (∀ quick_retries n : ℕ, ∀ rs : List AttemptResult, ∀ g : PktGrp,
        (runRetries quick_retries n (rs ++ [.success g])).1 = 0) := by
  refine ⟨fun _ _ _ => rfl, fun _ _ => rfl, ?_, ?_⟩
  · intro qr k
    induction k with
    | zero => intro n; simp [runRetries]
    | succ k ih =>
      intro n
      have harith : ∀ i, n + 1 + i + 1 = n + (i + 1) + 1 := by omega
      simp only [List.replicate_succ, runRetries, ih (n + 1), List.range_succ_eq_map,
        List.map_cons, List.map_map, Function.comp]
      refine Prod.ext (by omega) ?_
      simp [harith]
  · intro qr n rs g
    induction rs generalizing n with
    | nil => simp [runRetries]
    | cons r rs ih =>
      cases r with
      | success g' => simpa [runRetries] using ih 0
      | failure => simpa [runRetries] using ih (n + 1)

/-- C6: a wind-class group whose base unit string is "knots" is emitted with
the US unit-system tag and with wind speed and wind gust converted through
the external knot-to-mph conversion collaborator, for any measured values and
any conversion function; in particular a knots wind speed of 10.0 is emitted
as the collaborator's conversion of 10.0. -/
theorem wind_knots_converted_to_mph :
    (∀ (conv : ℚ → ℚ) (ws wd wg wgd : ℚ) (t : ℤ) (lrt : Option ℚ),
      assemblePacket conv DEFAULT_SENSOR_MAP t lrt "wind"
        [("base_units", .str "knots"), ("mtWindSpeed", .num ws),
         ("mtAdjWindDir", .num wd), ("mt2MinWindGustSpeed", .num wg),
         ("mt2MinWindGustDir", .num wgd)] =
      .ok ([("dateTime", .num (t : ℚ)), ("windSpeed", .num (conv ws)),
            ("windDir", .num wd), ("windGust", .num (conv wg)),
            ("windGustDir", .num wgd), ("usUnits", .usys .us)], lrt))
    ∧ (∀ (conv : ℚ → ℚ) (t : ℤ) (lrt : Option ℚ),
      assemblePacket conv DEFAULT_SENSOR_MAP t lrt "wind"
        [("base_units", .str "knots"), ("mtWindSpeed", .num 10),
         ("mtAdjWindDir", .num 270), ("mt2MinWindGustSpeed", .num 15),
         ("mt2MinWindGustDir", .num 280)] =
      .ok ([("dateTime", .num (t : ℚ)), ("windSpeed", .num (conv 10)),
            ("windDir", .num 270), ("windGust", .num (conv 15)),
            ("windGustDir", .num 280), ("usUnits", .usys .us)], lrt)) := by
  constructor
  · intro conv ws wd wg wgd t lrt
    rfl
  · intro conv t lrt
    rfl

/-- C7: a group whose base unit string is present but unknown to the unit
table (and is neither the wind-knots special case nor the generic sentinel)
is still emitted: assembly succeeds, only a diagnostic is logged, and the
packet carries no unit-system entry for that cycle. -/
theorem unknown_units_nonfatal (pkt_type u : String) (v : ℚ) (conv : ℚ → ℚ)
    (t : ℤ) (lrt : Option ℚ)
    (hu : alGet? UNITS_MAP u = none)
    (hknots : ¬(pkt_type = "wind" ∧ u = "knots"))
    (hgen : u ≠ "generic")
    (hrain : pkt_type ≠ "rain") :
    assemblePacket conv DEFAULT_SENSOR_MAP t lrt pkt_type
        [("base_units", .str u), ("mtTemp1", .num v)] =
      .ok ([("dateTime", .num (t : ℚ)), ("outTemp", .num v)], lrt)
    ∧ alGet? [("dateTime", PyVal.num (t : ℚ)), ("outTemp", PyVal.num v)] "usUnits" = none := by
  refine ⟨?_, by rfl⟩
  have hbu : alGet? [("base_units", PyVal.str u), ("mtTemp1", PyVal.num v)] "base_units"
      = some (PyVal.str u) := rfl
  have hren : renameFields DEFAULT_SENSOR_MAP
      [("base_units", PyVal.str u), ("mtTemp1", PyVal.num v)]
      [("dateTime", PyVal.num (t : ℚ))] =
      [("dateTime", PyVal.num (t : ℚ)), ("outTemp", PyVal.num v)] := rfl
  simp only [assemblePacket, normalizeUnits, hren, hbu, hu, if_neg hknots, if_neg hgen, if_neg hrain]

/-- Witness for C7: a pressure-class group with the unrecognized unit string
"furlongs" is emitted without a unit-system entry. -/
theorem unknown_units_nonfatal_witness :
    assemblePacket id DEFAULT_SENSOR_MAP 0 none "pressure"
        [("base_units", .str "furlongs"), ("mtTemp1", .num 1)] =
      .ok ([("dateTime", .num 0), ("outTemp", .num 1)], none) :=
  (unknown_units_nonfatal "pressure" "furlongs" 1 id 0 none (by decide)
    (by decide) (by decide) (by decide)).1

/-- C9: parsing is deterministic and stateless: across any sequence of
invocations of the parse step, equal input texts at any two positions yield
equal parse results, for any behaviour of the XML library collaborator. -/
theorem parse_pure_deterministic (fromstring : String → Except String XRoot)
    (ds : List String) (i j : ℕ) (h : ds[i]? = ds[j]?) :
    (parseRuns fromstring ds)[i]? = (parseRuns fromstring ds)[j]? := by
  simp only [parseRuns, List.getElem?_map, h]

/-- Witness for C9: the first and third invocations on the same text yield
the same result. -/
theorem parse_pure_deterministic_witness :
    (parseRuns (fun _ => .error "syntax error") ["<a>", "x", "<a>"])[0]? =
      (parseRuns (fun _ => .error "syntax error") ["<a>", "x", "<a>"])[2]? :=
  parse_pure_deterministic (fun _ => .error "syntax error") ["<a>", "x", "<a>"] 0 2 rfl

theorem assemblePacket_snd_of_nonrain (conv : ℚ → ℚ) (sm : List (String × String))
    (t : ℤ) (lrt : Option ℚ) (pkt_type : String) (pkt : Dict) (pk : Dict)
    (l2 : Option ℚ) (hrain : pkt_type ≠ "rain")
    (h : assemblePacket conv sm t lrt pkt_type pkt = .ok (pk, l2)) : l2 = lrt := by
  cases hbu : alGet? pkt "base_units" with
  | none =>
    rw [show assemblePacket conv sm t lrt pkt_type pkt = .error (.keyError "base_units") from by
      simp only [assemblePacket, hbu]] at h
    exact absurd h (by simp)
  | some buv =>
    cases hns : normalizeUnits conv pkt_type buv
        (renameFields sm pkt [("dateTime", .num (t : ℚ))]) with
    | error e =>
      rw [show assemblePacket conv sm t lrt pkt_type pkt = .error e from by
        simp only [assemblePacket, hbu, hns]] at h
      exact absurd h (by simp)
    | ok packet =>
      rw [show assemblePacket conv sm t lrt pkt_type pkt = .ok (packet, lrt) from by
        simp only [assemblePacket, hbu, hns, if_neg hrain]] at h
      simp only [Except.ok.injEq, Prod.mk.injEq] at h
      exact h.2.symm

/-- C1: a wind-class group is emitted on every poll cycle while every other
group class is emitted only on the minute's final poll: an emission pass over
any parsed group dictionary equals the unrestricted pass over just its
eligible groups; concretely, the document with one wind-class and one
temperature-class group emits only the wind record on a non-minute-final
cycle and both records on a minute-final cycle. -/
theorem wind_every_cycle_others_minute_final :
    (∀ (conv : ℚ → ℚ) (sm : List (String × String)) (t : ℤ) (grp : PktGrp)
        (flag : Bool) (lrt : Option ℚ),
      genCycle conv sm t grp flag lrt =
        genCycle conv sm t (grp.filter (fun p => decide (p.1 = "wind") || flag)) true lrt)
    ∧ parse_data_tree windTempDoc = .ok windTempGrp
    ∧ genCycle id DEFAULT_SENSOR_MAP 1000 windTempGrp false none = .ok ([windPkt1000], none)
    ∧ genCycle id DEFAULT_SENSOR_MAP 1000 windTempGrp true none =
        .ok ([windPkt1000, tempPkt1000], none) := by
  refine ⟨?_, by decide, by decide, by decide⟩
  intro conv sm t grp
  induction grp with
  | nil => intro flag lrt; rfl
  | cons p rest ih =>
    obtain ⟨ty, pk⟩ := p
    intro flag lrt
    by_cases hcond : ty ≠ "wind" ∧ flag = false
    · have hpred : (decide (ty = "wind") || flag) = false := by
        obtain ⟨h1, h2⟩ := hcond
        subst h2
        simp [h1]
      simp only [genCycle, if_pos hcond, List.filter_cons, hpred]
      exact ih flag lrt
    · have hpred : (decide (ty = "wind") || flag) = true := by
        rcases Decidable.em (ty = "wind") with h | h
        · simp [h]
        · cases flag with
          | false => exact absurd ⟨h, rfl⟩ hcond
          | true => simp
      simp only [genCycle, if_neg hcond, List.filter_cons, hpred, cond_true]
      rw [if_neg (show ¬(ty ≠ "wind" ∧ true = false) by simp)]
      cases hassem : assemblePacket conv sm t lrt ty pk with
      | error e => simp only [hassem]
      | ok pr =>
        obtain ⟨packet, lrt'⟩ := pr
        simp only [hassem, ih flag lrt']

theorem q53_10_eq : q53_10 = 53 / 10 := by
  rw [← Rat.num_div_den q53_10]
  norm_num [q53_10]

theorem q3_10_eq : q3_10 = 3 / 10 := by
  rw [← Rat.num_div_den q3_10]
  norm_num [q3_10]

theorem calc_rain_53 : calculate_rain (some q53_10) (some 5) = some q3_10 := by
  have h : calculate_rain (some q53_10) (some 5) = some (q53_10 - 5) := rfl
  rw [h, q53_10_eq, q3_10_eq]
  norm_num

theorem pyFloat_53 : pyFloat "5.3" = some q53_10 := by
  have h : pyFloat "5.3" = some ((5 : ℚ) + 3 / (10 : ℚ) ^ 1) := rfl
  rw [h, q53_10_eq]
  norm_num

/-- C2: on every rain-class emission the rain delta is computed by the
external formula from the current rain total and the carried last rain
total, and only after that computation is the carried total overwritten with
the current one, exactly once per rain-class emission (non-rain groups never
change the carried total); concretely, a first emission with total 5 and no
prior baseline stores no delta and sets the carried total to 5, and a second
emission with total 5.3 stores delta 0.3 and sets the carried total to
5.3. -/
theorem rain_delta_sequencing :
    (∀ (packet : Dict) (lrt : Option ℚ) (q : ℚ),
      alGet? packet "rainTotal" = some (.num q) →
      calculate_rain_delta packet lrt =
        .ok (alSet packet "rain" (rainVal (calculate_rain (some q) lrt)), some q))
    ∧ (∀ (conv : ℚ → ℚ) (sm : List (String × String)) (t : ℤ) (grp : PktGrp)
        (flag : Bool) (lrt : Option ℚ) (pkts : List Dict) (lrt' : Option ℚ),
        (∀ p ∈ grp, p.1 ≠ "rain") →
        genCycle conv sm t grp flag lrt = .ok (pkts, lrt') → lrt' = lrt)
    ∧ parse_data_tree (rainDoc "5") = .ok rainGrp50
    ∧ genCycle id DEFAULT_SENSOR_MAP 0 rainGrp50 true none = .ok ([rainPkt1], some 5)
    ∧ parse_data_tree (rainDoc "5.3") = .ok rainGrp53
    ∧ genCycle id DEFAULT_SENSOR_MAP 0 rainGrp53 true (some 5) =
        .ok ([rainPkt2], some q53_10)
    ∧ q53_10 = 53 / 10 ∧ q3_10 = 3 / 10 := by
  refine ⟨?_, ?_, by decide, by decide, ?_, ?_, q53_10_eq, q3_10_eq⟩
  · intro packet lrt q h
    unfold calculate_rain_delta
    rw [h]
  · intro conv sm t grp
    induction grp with
    | nil =>
      intro flag lrt pkts lrt' _ h
      simp only [genCycle, Except.ok.injEq, Prod.mk.injEq] at h
      exact h.2.symm
    | cons p rest ih =>
      obtain ⟨ty, pk⟩ := p
      intro flag lrt pkts lrt' hnr h
      have hty : ty ≠ "rain" := hnr (ty, pk) (List.mem_cons_self _ _)
      have hrest : ∀ p ∈ rest, p.1 ≠ "rain" := fun p hp => hnr p (List.mem_cons_of_mem _ hp)
      by_cases hcond : ty ≠ "wind" ∧ flag = false
      · rw [show genCycle conv sm t ((ty, pk) :: rest) flag lrt =
              genCycle conv sm t rest flag lrt from by
            simp only [genCycle, if_pos hcond]] at h
        exact ih flag lrt pkts lrt' hrest h
      · cases hassem : assemblePacket conv sm t lrt ty pk with
        | error e =>
          rw [show genCycle conv sm t ((ty, pk) :: rest) flag lrt = .error e from by
            simp only [genCycle, if_neg hcond, hassem]] at h
          exact absurd h (by simp)
        | ok pr =>
          obtain ⟨packet, l2⟩ := pr
          cases hrec : genCycle conv sm t rest flag l2 with
          | error e =>
            rw [show genCycle conv sm t ((ty, pk) :: rest) flag lrt = .error e from by
              simp only [genCycle, if_neg hcond, hassem, hrec]] at h
            exact absurd h (by simp)
          | ok out =>
            obtain ⟨pkts0, lf⟩ := out
            rw [show genCycle conv sm t ((ty, pk) :: rest) flag lrt =
                  .ok (packet :: pkts0, lf) from by
                simp only [genCycle, if_neg hcond, hassem, hrec]] at h
            simp only [Except.ok.injEq, Prod.mk.injEq] at h
            have h1 : lf = l2 := ih flag l2 pkts0 lf hrest hrec
            have h2 : l2 = lrt :=
              assemblePacket_snd_of_nonrain conv sm t lrt ty pk packet l2 hty hassem
            rw [← h.2, h1, h2]
  · have h0 : pyFloat "0" = some 0 := by decide
    simp [parse_data_tree, rainDoc, List.foldlM_cons, List.foldlM_nil, processChild,
      setInGrp, alGet?, alSet, pyFloat_53, h0, rainGrp53, XML_INPUT_ELEMENTS,
      XML_INPUT_UNIT_ELEMENTS, Bind.bind, Except.bind, Pure.pure, Except.pure]
  · simp [genCycle, assemblePacket, normalizeUnits, renameFields, calculate_rain_delta,
      calc_rain_53, rainVal, alGet?, alSet, UNITS_MAP, DEFAULT_SENSOR_MAP, List.foldl,
      rainGrp53, rainPkt2]

/-- Witness for C2: the rain-delta step at total 5 with no prior baseline
stores no delta and returns carried total 5. -/
theorem rain_delta_sequencing_witness :
    calculate_rain_delta [("rainTotal", PyVal.num 5)] none =
      .ok ([("rainTotal", PyVal.num 5), ("rain", PyVal.pynone)], some 5) := by
  have h := rain_delta_sequencing.1 [("rainTotal", PyVal.num 5)] none 5 (by decide)
  simpa [alSet, rainVal, calculate_rain] using h

/-- C4 counterexample: a numeric-coercion failure does not surface as the
ParseError kind; it escapes as an uncaught ValueError, which is not the
failure kind the retry controller catches. -/
theorem parse_failure_kind_counterexample :
    parse_data_tree badFloatDoc = .error (.valueError "abc")
    ∧ isIOErrKind (.valueError "abc") = false := ⟨by decide, by decide⟩

/-- C4 amended: an XML-library parse failure and the explicit root/first-child
structural check yield the single externally visible `weewx.WeeWxIOError`
kind, but an empty root escapes as IndexError, a child without a `name`
attribute as KeyError, and a numeric-coercion failure as ValueError — none of
which the retry controller catches. -/
theorem parse_failure_kinds :
    (∀ (fromstring : String → Except String XRoot) (d m : String),
      fromstring (repairStr d) = .error m →
      parse_data fromstring d = .error (.weewxIOError m))
    ∧ (∀ root : XRoot, root.tag ≠ "oriondata" →
        parse_data_tree root = .error (.weewxIOError structErrMsg))
    ∧ (∀ (root : XRoot) (c : XElem) (cs : List XElem),
        root.tag = "oriondata" → root.children = c :: cs → c.tag ≠ "meas" →
        parse_data_tree root = .error (.weewxIOError structErrMsg))
    ∧ parse_data_tree emptyRootDoc = .error .indexError
    ∧ parse_data_tree missingNameDoc = .error (.keyError "name")
    ∧ parse_data_tree badFloatDoc = .error (.valueError "abc") := by
  refine ⟨?_, ?_, ?_, by decide, by decide, by decide⟩
  · intro fromstring d m h
    simp only [parse_data, h]
  · intro root h
    simp only [parse_data_tree, if_neg h]
  · intro root c cs h1 h2 h3
    simp only [parse_data_tree, if_pos h1, h2, if_neg h3]

/-- Witness for C4 (amended): an XML-library failure is re-raised as the
WeeWxIOError kind. -/
theorem parse_failure_kinds_witness :
    parse_data (fun _ => .error "not well-formed") "<bad" =
      .error (.weewxIOError "not well-formed") :=
  parse_failure_kinds.1 (fun _ => .error "not well-formed") "<bad" "not well-formed" rfl

theorem subClose_append (p t : List Char) (hmatch : matchHere t = true)
    (hnl : t.getLast? ≠ some '\n')
    (hbefore : ∀ i, i < p.length → matchHere ((p ++ t).drop i) = false) :
    subClose (p ++ t) = p ++ closeTag := by
  induction p with
  | nil =>
    cases t with
    | nil => simp [matchHere, closePre, List.isPrefixOf] at hmatch
    | cons c rest =>
      simp only [List.nil_append, subClose, if_pos hmatch]
      rw [if_neg hnl]
      simp
  | cons a p' ih =>
    have h0 : matchHere (a :: (p' ++ t)) = false := by
      have h := hbefore 0 (by simp)
      simpa using h
    simp only [List.cons_append, subClose, List.append_eq, h0, Bool.false_eq_true,
      if_false]
    rw [ih (fun i hi => by
      have h := hbefore (i + 1) (by simpa using hi)
      simpa [List.drop_succ_cons] using h)]

/-- C8 amended: when a document that begins with the root opening tag and
lacks the canonical closing tag still contains at least the five characters
`</ori` of a partial closing tag (with no newline after the corruption
point), the repair replaces everything from the first such occurrence by the
canonical closing tag, preserving the document prefix — hence every
measurement element before the corruption point — verbatim.  A document
truncated before `</ori` is left unrepaired. -/
theorem truncation_repair (p t : List Char)
    (hopen : openTag.isPrefixOf (p ++ t) = true)
    (hclosed : closeTag.isSuffixOf (p ++ t) = false)
    (hmatch : matchHere t = true)
    (hnl : t.getLast? ≠ some '\n')
    (hbefore : ∀ i, i < p.length → matchHere ((p ++ t).drop i) = false) :
    repairData (p ++ t) = p ++ closeTag := by
  unfold repairData
  rw [hopen, hclosed]
  simp only [Bool.not_false, Bool.and_self, if_true]
  exact subClose_append p t hmatch hnl hbefore

/-- Witness for C8 (amended): the null-byte-corrupted partial closing tag is
replaced by the canonical closing tag, preserving the intact prefix. -/
theorem truncation_repair_witness :
    repairData (goodPrefix ++ corruptTail) = goodPrefix ++ closeTag :=
  truncation_repair goodPrefix corruptTail (by decide) (by decide) (by decide)
    (by decide) (by decide)

/-- C8 counterexample: a document that begins with the root opening tag and
does not end with the canonical closing tag, but whose trailing partial
closing sequence `</or` is shorter than the five characters the repair
pattern requires: the repair leaves it unchanged and restores no canonical
closing tag. -/
theorem truncation_repair_counterexample :
    openTag.isPrefixOf truncDoc = true
    ∧ closeTag.isSuffixOf truncDoc = false
    ∧ repairData truncDoc = truncDoc
    ∧ closeTag.isSuffixOf (repairData truncDoc) = false :=
  ⟨by decide, by decide, by decide, by decide⟩

theorem alGet?_setInGrp_self (grp : PktGrp) (t k : String) (v : PyVal) :
    alGet? (setInGrp grp t k v) t = some (alSet ((alGet? grp t).getD []) k v) := by
  simp [setInGrp, alGet?_alSet_self]

theorem alGet?_setInGrp_ne (grp : PktGrp) (t k g : String) (v : PyVal) (h : g ≠ t) :
    alGet? (setInGrp grp t k v) g = alGet? grp g := by
  simp [setInGrp, alGet?_alSet_ne _ _ _ _ h]

theorem groupHasBaseUnits_init (grp : PktGrp) (t g : String) :
    groupHasBaseUnits (if (alGet? grp t).isSome then grp else alSet grp t []) g =
      groupHasBaseUnits grp g := by
  split
  · rfl
  · rename_i hnone
    by_cases hg : g = t
    · subst hg
      rw [Option.not_isSome_iff_eq_none] at hnone
      simp [groupHasBaseUnits, alGet?_alSet_self, hnone, alGet?]
    · simp [groupHasBaseUnits, alGet?_alSet_ne _ _ _ _ hg]

theorem name_ne_base_units (name pkt_type : String)
    (h : alGet? XML_INPUT_ELEMENTS name = some pkt_type) : name ≠ "base_units" := by
  intro hh
  rw [hh] at h
  rw [show alGet? XML_INPUT_ELEMENTS "base_units" = none from by decide] at h
  exact absurd h (by simp)

theorem processChild_baseUnits (grp grp' : PktGrp) (c : XElem) (g : String)
    (h : processChild grp c = .ok grp') :
    groupHasBaseUnits grp' g = (groupHasBaseUnits grp g || designates c g) := by
  cases hname : alGet? c.attrib "name" with
  | none =>
    rw [show processChild grp c = .error (.keyError "name") from by
      simp only [processChild, hname]] at h
    exact absurd h (by simp)
  | some name =>
    by_cases htag : c.tag = "meas"
    · cases htab : alGet? XML_INPUT_ELEMENTS name with
      | none =>
        rw [show processChild grp c = .ok grp from by
          simp only [processChild, hname, htag, if_true, htab]] at h
        simp only [Except.ok.injEq] at h
        subst h
        simp [designates, hname, htab]
      | some pkt_type =>
        have hnbu : name ≠ "base_units" := name_ne_base_units name pkt_type htab
        by_cases hmem : name ∈ XML_INPUT_UNIT_ELEMENTS
        · -- designated unit measurement: base_units is written
          have hdes2 : designates c g = decide (pkt_type = g) := by
            simp [designates, hname, htag, htab, hmem]
          cases hfl : pyFloat c.text with
          | none =>
            by_cases hgen : pkt_type = "generic"
            · rw [show processChild grp c = .error (.valueError c.text) from by
                simp only [processChild, hname, htag, if_true, htab, if_pos hmem,
                  if_pos hgen, hfl]] at h
              exact absurd h (by simp)
            · cases hunit : alGet? c.attrib "unit" with
              | none =>
                rw [show processChild grp c = .error (.keyError "unit") from by
                  simp only [processChild, hname, htag, if_true, htab, if_pos hmem,
                    if_neg hgen, hunit]] at h
                exact absurd h (by simp)
              | some u =>
                rw [show processChild grp c = .error (.valueError c.text) from by
                  simp only [processChild, hname, htag, if_true, htab, if_pos hmem,
                    if_neg hgen, hunit, hfl]] at h
                exact absurd h (by simp)
          | some q =>
            have hstep : ∀ buval : PyVal,
                groupHasBaseUnits
                  (setInGrp
                    (setInGrp (if (alGet? grp pkt_type).isSome then grp
                               else alSet grp pkt_type [])
                      pkt_type "base_units" buval)
                    pkt_type name (.num q)) g =
                (groupHasBaseUnits grp g || decide (pkt_type = g)) := by
              intro buval
              by_cases hg : g = pkt_type
              · subst hg
                simp [groupHasBaseUnits, alGet?_setInGrp_self,
                  alGet?_alSet_ne _ _ _ _ (Ne.symm hnbu), alGet?_alSet_self]
              · rw [groupHasBaseUnits] at *
                rw [alGet?_setInGrp_ne _ _ _ _ _ hg, alGet?_setInGrp_ne _ _ _ _ _ hg]
                have hinit := groupHasBaseUnits_init grp pkt_type g
                rw [groupHasBaseUnits] at hinit
                rw [hinit]
                simp [Ne.symm hg, hg]
            by_cases hgen : pkt_type = "generic"
            · rw [show processChild grp c =
                    .ok (setInGrp
                      (setInGrp (if (alGet? grp pkt_type).isSome then grp
                                 else alSet grp pkt_type [])
                        pkt_type "base_units" (.str "generic"))
                      pkt_type name (.num q)) from by
                  simp only [processChild, hname, htag, if_true, htab, if_pos hmem,
                    if_pos hgen, hfl]] at h
              simp only [Except.ok.injEq] at h
              subst h
              rw [hstep, hdes2]
            · cases hunit : alGet? c.attrib "unit" with
              | none =>
                rw [show processChild grp c = .error (.keyError "unit") from by
                  simp only [processChild, hname, htag, if_true, htab, if_pos hmem,
                    if_neg hgen, hunit]] at h
                exact absurd h (by simp)
              | some u =>
                rw [show processChild grp c =
                      .ok (setInGrp
                        (setInGrp (if (alGet? grp pkt_type).isSome then grp
                                   else alSet grp pkt_type [])
                          pkt_type "base_units" (.str u))
                        pkt_type name (.num q)) from by
                    simp only [processChild, hname, htag, if_true, htab, if_pos hmem,
                      if_neg hgen, hunit, hfl]] at h
                simp only [Except.ok.injEq] at h
                subst h
                rw [hstep, hdes2]
        · -- not a designated unit measurement: base_units untouched
          have hdes2 : designates c g = false := by
            simp [designates, hname, htag, htab, hmem]
          cases hfl : pyFloat c.text with
          | none =>
            rw [show processChild grp c = .error (.valueError c.text) from by
              simp only [processChild, hname, htag, if_true, htab, if_neg hmem, hfl]] at h
            exact absurd h (by simp)
          | some q =>
            rw [show processChild grp c =
                  .ok (setInGrp (if (alGet? grp pkt_type).isSome then grp
                                 else alSet grp pkt_type [])
                    pkt_type name (.num q)) from by
                simp only [processChild, hname, htag, if_true, htab, if_neg hmem, hfl]] at h
            simp only [Except.ok.injEq] at h
            subst h
            rw [hdes2, Bool.or_false]
            by_cases hg : g = pkt_type
            · subst hg
              simp only [groupHasBaseUnits, alGet?_setInGrp_self]
              rw [alGet?_alSet_ne _ _ _ _ (Ne.symm hnbu)]
              cases hpres : alGet? grp g with
              | none =>
                simp [hpres, alGet?_alSet_self, groupHasBaseUnits, alGet?]
              | some d =>
                simp [hpres, groupHasBaseUnits]
            · rw [groupHasBaseUnits, alGet?_setInGrp_ne _ _ _ _ _ hg]
              have hinit := groupHasBaseUnits_init grp pkt_type g
              rw [groupHasBaseUnits] at hinit
              rw [hinit, groupHasBaseUnits]
    · rw [show processChild grp c = .ok grp from by
        simp only [processChild, hname, if_neg htag]] at h
      simp only [Except.ok.injEq] at h
      subst h
      simp [designates, htag]

theorem foldlM_processChild_baseUnits (cs : List XElem) :
    ∀ (grp grp' : PktGrp) (g : String),
      List.foldlM processChild grp cs = .ok grp' →
      groupHasBaseUnits grp' g =
        (groupHasBaseUnits grp g || cs.any (fun c => designates c g)) := by
  induction cs with
  | nil =>
    intro grp grp' g h
    simp only [List.foldlM_nil, pure, Except.pure, Except.ok.injEq] at h
    subst h
    simp
  | cons c cs ih =>
    intro grp grp' g h
    rw [List.foldlM_cons] at h
    cases hc : processChild grp c with
    | error e =>
      rw [hc] at h
      simp [Bind.bind, Except.bind] at h
    | ok grp1 =>
      rw [hc] at h
      simp only [Bind.bind, Except.bind] at h
      rw [ih grp1 grp' g h, processChild_baseUnits grp grp1 c g hc]
      simp [Bool.or_assoc]

/-- C10: after a successful parse a group's dictionary contains the
`base_units` entry exactly when the document contains a recognized
measurement element designating that group (its name is in the
unit-determining list and maps to that group); packet assembly reads
`base_units` unconditionally, so any group lacking it — such as a
temperature group built only from windchill — makes assembly fail with a
KeyError, and no record is emitted for it. -/
theorem base_units_iff_designated :
    (∀ (root : XRoot) (grp : PktGrp) (g : String),
      parse_data_tree root = .ok grp →
      groupHasBaseUnits grp g = root.children.any (fun c => designates c g))
    ∧ (∀ (conv : ℚ → ℚ) (sm : List (String × String)) (t : ℤ) (lrt : Option ℚ)
        (pkt_type : String) (pkt : Dict),
        alGet? pkt "base_units" = none →
        assemblePacket conv sm t lrt pkt_type pkt = .error (.keyError "base_units"))
    ∧ parse_data_tree windchillOnlyDoc = .ok windchillOnlyGrp
    ∧ genCycle id DEFAULT_SENSOR_MAP 0 windchillOnlyGrp true none =
        .error (.keyError "base_units") := by
  refine ⟨?_, ?_, by decide, by decide⟩
  · intro root grp g h
    by_cases htag : root.tag = "oriondata"
    · cases hch : root.children with
      | nil =>
        rw [show parse_data_tree root = .error .indexError from by
          simp only [parse_data_tree, if_pos htag, hch]] at h
        exact absurd h (by simp)
      | cons c cs =>
        by_cases hc : c.tag = "meas"
        · rw [show parse_data_tree root = List.foldlM processChild [] root.children from by
            simp only [parse_data_tree, if_pos htag, hch, if_pos hc]] at h
          rw [hch] at h
          rw [foldlM_processChild_baseUnits _ _ _ _ h]
          simp [groupHasBaseUnits, alGet?]
        · rw [show parse_data_tree root = .error (.weewxIOError structErrMsg) from by
            simp only [parse_data_tree, if_pos htag, hch, if_neg hc]] at h
          exact absurd h (by simp)
    · rw [show parse_data_tree root = .error (.weewxIOError structErrMsg) from by
        simp only [parse_data_tree, if_neg htag]] at h
      exact absurd h (by simp)
  · intro conv sm t lrt pkt_type pkt hbu
    simp only [assemblePacket, hbu]

/-- Witness for C10: the windchill-only temperature group has no `base_units`
entry, and assembling any group without one fails with the KeyError. -/
theorem base_units_iff_designated_witness :
    groupHasBaseUnits windchillOnlyGrp "temp" = false
    ∧ assemblePacket id DEFAULT_SENSOR_MAP 0 none "temp" [("mtWindChill", PyVal.num 30)] =
        .error (.keyError "base_units") := by
  constructor
  · rw [base_units_iff_designated.1 windchillOnlyDoc windchillOnlyGrp "temp" (by decide)]
    decide
  · exact base_units_iff_designated.2.1 id DEFAULT_SENSOR_MAP 0 none "temp"
      [("mtWindChill", PyVal.num 30)] (by decide)

end ColumbiaMS
